import Mathlib

/-!
Shallow embedding of the two Next.js API route handlers in
`src/app/api/lastfm/get-nth-song/route.ts` of `ericf1/last-fm-random-song`:

* `getNthSongGET` — the track-by-index endpoint (first `GET` handler);
* `maxPlaycountGET` — the playcount endpoint (second `GET` handler).

JavaScript numbers reachable in these handlers are exactly representable
decimals, so they are embedded as `ℚ`, with `Option ℚ` standing for
"number or NaN" (`none` = NaN).  Parsed JSON values are embedded as the
inductive `JsonVal`; `Option JsonVal` stands for "value or undefined".
Upstream `fetch` behaviour is an oracle (`FetchOutcome`) supplied through
the environment `Env`; each handler also returns the list/count of
outbound calls it performed, so "no outbound call" claims are statable.
-/

namespace LastFmApp

/-- Embedded JSON values (the result of `response.json()`). -/
inductive JsonVal where
  | null : JsonVal
  | bool (b : Bool) : JsonVal
  | num (q : ℚ) : JsonVal
  | str (s : String) : JsonVal
  | arr (xs : List JsonVal) : JsonVal
  | obj (fields : List (String × JsonVal)) : JsonVal

/-- Field lookup in a JSON object literal (first match wins, as in JS). -/
def lookupField : List (String × JsonVal) → String → Option JsonVal
  | [], _ => none
  | (k, v) :: rest, key => if k = key then some v else lookupField rest key

/-- The optional-chain field access `v?.key`: `none` plays "undefined". -/
def JsonVal.getField : JsonVal → String → Option JsonVal
  | .obj fs, key => lookupField fs key
  | _, _ => none

/-- Whether a JSON object value has a given key. -/
def JsonVal.hasKey (v : JsonVal) (key : String) : Bool :=
  (v.getField key).isSome

/-- The optional-chain numeric index `v?.[q]`: defined only when `v` is an
array and `q` is a whole number inside bounds, as for JS array indexing
(a fractional or out-of-range index yields undefined). -/
def jsIndexQ (v : JsonVal) (q : ℚ) : Option JsonVal :=
  match v with
  | .arr xs => if q.den = 1 ∧ 0 ≤ q.num then xs[q.num.toNat]? else none
  | _ => none

/-- JS whitespace characters relevant to `Number(string)` trimming. -/
def jsWs (c : Char) : Bool :=
  c == ' ' || c == '\t' || c == '\n' || c == '\r'

/-- Trim leading and trailing whitespace from a character list. -/
def trimChars (cs : List Char) : List Char :=
  ((cs.dropWhile jsWs).reverse.dropWhile jsWs).reverse

/-- Numeric value of a digit string (most significant first). -/
def digitsNat (cs : List Char) : Nat :=
  cs.foldl (fun acc c => acc * 10 + (c.toNat - 48)) 0

/-- Parse an unsigned decimal literal `digits`, `digits.digits`, `digits.`
or `.digits`; `none` means NaN. -/
def parseUnsigned (cs : List Char) : Option ℚ :=
  let intPart := cs.takeWhile Char.isDigit
  let rest := cs.dropWhile Char.isDigit
  match rest with
  | [] => if intPart = [] then none else some (digitsNat intPart : ℚ)
  | '.' :: frac =>
    if frac.all Char.isDigit ∧ (intPart ≠ [] ∨ frac ≠ []) then
      some ((digitsNat intPart : ℚ) + (digitsNat frac : ℚ) / (10 ^ frac.length : ℚ))
    else none
  | _ => none

/-- Model of the JS `Number(string)` coercion on its decimal fragment:
trimmed-empty strings coerce to `0`; signed decimal literals parse to their
value; anything else is NaN (`none`).  Hexadecimal, exponent and Infinity
forms are outside the inputs these handlers can receive from their claims
and are mapped to NaN. -/
def jsNumberOfString (s : String) : Option ℚ :=
  let cs := trimChars s.data
  if cs = [] then some 0
  else
    match cs with
    | '+' :: rest => parseUnsigned rest
    | '-' :: rest => (parseUnsigned rest).map (fun q => -q)
    | _ => parseUnsigned cs

/-- Model of the JS `Number(value)` coercion on parsed JSON values.
Arrays and objects are mapped to NaN (the upstream payloads relevant here
never hold them in the coerced position). -/
def jsToNumber : JsonVal → Option ℚ
  | .num q => some q
  | .str s => jsNumberOfString s
  | .bool b => some (if b then 1 else 0)
  | .null => some 0
  | .arr _ => none
  | .obj _ => none

/-- JS falsiness of an optional string (`undefined`, `null` and `""` are
falsy; every other string is truthy). -/
def jsFalsyS : Option String → Bool
  | none => true
  | some s => s == ""

/-- JS falsiness of an optionally-undefined JSON value. -/
def jsFalsyV : JsonVal → Bool
  | .null => true
  | .bool b => !b
  | .num q => q == 0
  | .str s => s == ""
  | _ => false

/-- JS `Math.trunc`-style truncation on `ℚ` (round toward zero). -/
def jsTrunc (q : ℚ) : ℤ :=
  if 0 ≤ q then ⌊q⌋ else ⌈q⌉

/-- JS remainder `a % b`: `a - b * trunc (a / b)` (sign of the dividend). -/
def jsRem (a b : ℚ) : ℚ :=
  a - b * (jsTrunc (a / b) : ℚ)

/-- The fixed Last.fm page size (`const limit = 200` in the source). -/
def limit : ℚ := 200

/-- `const nFromLatest = maxPlaycount - n + 1` from the source. -/
def nFromLatest (maxPlaycount n : ℚ) : ℚ := maxPlaycount - n + 1

/-- `const page = Math.floor((nFromLatest - 1) / limit) + 1` from the source. -/
def page (maxPlaycount n : ℚ) : ℤ :=
  ⌊(nFromLatest maxPlaycount n - 1) / limit⌋ + 1

/-- `const indexInPage = (nFromLatest - 1) % limit` from the source. -/
def indexInPage (maxPlaycount n : ℚ) : ℚ :=
  jsRem (nFromLatest maxPlaycount n - 1) limit

/-- Oracle for one upstream `fetch`: the parsed body on success, a non-ok
HTTP status, a body whose `.json()` parse throws, or a thrown fetch. -/
inductive FetchOutcome where
  | ok (body : JsonVal) : FetchOutcome
  | httpError (status : Nat) : FetchOutcome
  | okBadJson : FetchOutcome
  | threw : FetchOutcome

/-- Handler environment: the `LASTFM_API_KEY` variable and the upstream
oracle for the (at most one) outbound call. -/
structure Env where
  apiKey : Option String
  fetch : FetchOutcome

/-- An HTTP response: status code and JSON body. -/
structure Response where
  status : Nat
  body : JsonVal

/-- The `NextResponse.json({ error }, { status })` shape. -/
def errResp (status : Nat) (msg : String) : Response :=
  ⟨status, .obj [("error", .str msg)]⟩

/-- The validation predicate of line 44 of the source:
`isNaN(n) || isNaN(maxPlaycount) || n < 1 || n > maxPlaycount`. -/
def invalidNM : Option ℚ → Option ℚ → Bool
  | none, _ => true
  | some _, none => true
  | some n, some m => decide (n < 1) || decide (m < n)

/-- Whether an optionally-undefined JSON value is exactly JSON `null`
(the `=== null` comparison). -/
def isNullV : Option JsonVal → Bool
  | some .null => true
  | _ => false

/-- The track-by-index handler (first `GET` of the route file).  Returns
the response together with the list of pages requested upstream. -/
def getNthSongGET (env : Env) (user nParam maxPlaycountParam : Option String) :
    Response × List ℤ :=
  if jsFalsyS user || jsFalsyS nParam || jsFalsyS maxPlaycountParam then
    (errResp 400 "Missing required parameters: user, n, maxPlaycount", [])
  else
    let n := jsNumberOfString (nParam.getD "")
    let maxPlaycount := jsNumberOfString (maxPlaycountParam.getD "")
    if invalidNM n maxPlaycount then
      (errResp 400 "Invalid 'n' or 'maxPlaycount' value", [])
    else if jsFalsyS env.apiKey then
      (errResp 500 "Server misconfigured: Missing API key", [])
    else
      let nv := n.getD 0
      let mv := maxPlaycount.getD 0
      let pg := page mv nv
      let idx := indexInPage mv nv
      match env.fetch with
      | .threw => (errResp 500 "Internal Server Error", [pg])
      | .okBadJson => (errResp 500 "Internal Server Error", [pg])
      | .httpError s => (errResp s "Error fetching data from Last.fm API", [pg])
      | .ok data =>
        match ((data.getField "recenttracks").bind
            (fun v => v.getField "track")).bind (fun v => jsIndexQ v idx) with
        | none => (errResp 404 "Track not found at the specified index.", [pg])
        | some t =>
          if jsFalsyV t then
            (errResp 404 "Track not found at the specified index.", [pg])
          else
            (⟨200, .obj [("track", t)]⟩, [pg])

/-- The playcount handler (second `GET` of the route file).  Returns the
response together with the number of outbound calls performed. -/
def maxPlaycountGET (env : Env) (user : Option String) : Response × Nat :=
  if jsFalsyS user then
    (errResp 400 "Missing required parameter: user", 0)
  else if jsFalsyS env.apiKey then
    (errResp 500 "Server misconfigured: Missing API key", 0)
  else
    match env.fetch with
    | .threw => (errResp 500 "Internal Server Error", 1)
    | .okBadJson => (errResp 500 "Internal Server Error", 1)
    | .httpError s =>
      if s = 404 then (errResp 404 "Last.fm user not found", 1)
      else (errResp s "Error fetching data from Last.fm API", 1)
    | .ok data =>
      let playcountString := (data.getField "user").bind (fun v => v.getField "playcount")
      if playcountString.isNone || isNullV playcountString then
        (errResp 404 "Could not find playcount for the specified user.", 1)
      else
        match jsToNumber (playcountString.getD .null) with
        | none => (errResp 500 "Invalid playcount format received from Last.fm", 1)
        | some q => (⟨200, .obj [("maxPlaycount", .num q)]⟩, 1)

/-- Modelled from the spec: the SpotifyEnricher of spec section 4.3 —
including its track-title normalization (step 3) — is code of this
repository that is not present under `src/`; only the two Last.fm route
handlers are.  The title normalization is therefore modelled from the
spec's words: strip trailing dash qualifiers ("- Radio Edit",
"- Remastered [year]", "- Live", "- Mono/Stereo") and trailing
parenthetical qualifiers ("(feat. …)", "(Live)", "(Remastered …)"),
conservatively, so legitimately bracketed titles are kept.  `isYearish`
recognises the "[year]" part: a non-empty all-digit suffix. -/
def isYearish (cs : List Char) : Bool :=
  !cs.isEmpty && cs.all Char.isDigit

/-- Modelled from the spec: whether the text after a trailing " - " is one
of the qualifiers listed in spec section 4.3 step 3. -/
def isDashQualifier (cs : List Char) : Bool :=
  cs == "Radio Edit".data || cs == "Live".data || cs == "Mono".data ||
  cs == "Stereo".data || cs == "Mono/Stereo".data ||
  (cs.take 10 == "Remastered".data &&
    (cs.drop 10 == [] ||
      (match cs.drop 10 with
        | ' ' :: ys => isYearish ys
        | _ => false)))

/-- Split a character list at its last " - " separator, if any. -/
def splitLastDash : List Char → Option (List Char × List Char)
  | [] => none
  | c :: rest =>
    match splitLastDash rest with
    | some (b, a) => some (c :: b, a)
    | none =>
      match c, rest with
      | ' ', '-' :: ' ' :: tail => some ([], tail)
      | _, _ => none

/-- Modelled from the spec: drop a trailing "- <qualifier>" from a title. -/
def stripDashQualifier (cs : List Char) : List Char :=
  match splitLastDash cs with
  | some (before, after) => if isDashQualifier after then before else cs
  | none => cs

/-- Modelled from the spec: whether a parenthesised suffix is a qualifier
("(feat. …)", "(Live)", "(Remastered …)"). -/
def isParenQualifier (cs : List Char) : Bool :=
  cs.take 5 == "feat.".data || cs == "Live".data || cs.take 10 == "Remastered".data

/-- Drop trailing spaces. -/
def trimRight (cs : List Char) : List Char :=
  (cs.reverse.dropWhile (fun c => c == ' ')).reverse

/-- Modelled from the spec: drop a trailing "(<qualifier>)" from a title. -/
def stripParenQualifier (cs : List Char) : List Char :=
  match cs.reverse with
  | ')' :: rest =>
    let innerRev := rest.takeWhile (fun c => !(c == '('))
    match rest.drop innerRev.length with
    | '(' :: beforeRev =>
      if isParenQualifier innerRev.reverse then trimRight beforeRev.reverse else cs
    | _ => cs
  | _ => cs

/-- Modelled from the spec: the SpotifyEnricher's track-title
normalization of spec section 4.3 step 3 (absent from `src/`). -/
def normalizeTitle (s : String) : String :=
  String.mk (trimRight (stripParenQualifier (stripDashQualifier s.data)))

/-! ## Pagination arithmetic -/

/-- On integer inputs the floored rational division agrees with integer
division (`ℤ` division in Lean is Euclidean, which is floor division for a
positive divisor). -/
theorem page_int_eq (n m : ℤ) : page (m : ℚ) (n : ℚ) = (m - n) / 200 + 1 := by
  unfold page nFromLatest limit
  have e : ((m : ℚ) - n + 1 - 1) / 200 = ((m - n : ℤ) : ℚ) / ((200 : ℕ) : ℚ) := by
    push_cast; ring
  rw [e, Rat.floor_intCast_div_natCast]
  norm_num

/-- On integer inputs with `n ≤ m`, the JS remainder in `indexInPage`
agrees with the integer `emod`. -/
theorem indexInPage_int_eq (n m : ℤ) (h : n ≤ m) :
    indexInPage (m : ℚ) (n : ℚ) = (((m - n) % 200 : ℤ) : ℚ) := by
  unfold indexInPage jsRem jsTrunc nFromLatest limit
  have e1 : ((m : ℚ) - n + 1 - 1) = ((m - n : ℤ) : ℚ) := by push_cast; ring
  rw [e1]
  have hnn : (0 : ℚ) ≤ ((m - n : ℤ) : ℚ) / 200 := by
    apply div_nonneg
    · exact_mod_cast sub_nonneg.2 h
    · norm_num
  rw [if_pos hnn]
  have e2 : ((m - n : ℤ) : ℚ) / 200 = ((m - n : ℤ) : ℚ) / ((200 : ℕ) : ℚ) := by
    norm_num
  rw [e2, Rat.floor_intCast_div_natCast]
  have e3 : (m - n) % 200 = (m - n) - 200 * ((m - n) / (200 : ℤ)) := by
    rw [Int.emod_def]
  rw [e3]
  push_cast
  ring

/-- C2: for all valid inputs with `1 ≤ n ≤ maxPlaycount`, the resolver's
page is `⌊(maxPlaycount - n) / 200⌋ + 1` and the 0-based offset within the
page is `(maxPlaycount - n) mod 200`; concretely, `maxPlaycount = 500,
n = 1` gives page 3 and offset 99, and `maxPlaycount = 500, n = 500` gives
page 1 and offset 0. -/
theorem C2_pagination_formula (n m : ℤ) (h1 : 1 ≤ n) (h2 : n ≤ m) :
    page (m : ℚ) (n : ℚ) = ⌊((m : ℚ) - (n : ℚ)) / 200⌋ + 1 ∧
    indexInPage (m : ℚ) (n : ℚ) = (((m - n) % 200 : ℤ) : ℚ) ∧
    page 500 1 = 3 ∧ indexInPage 500 1 = 99 ∧
    page 500 500 = 1 ∧ indexInPage 500 500 = 0 := by
  refine ⟨?_, indexInPage_int_eq n m h2, ?_, ?_, ?_, ?_⟩
  · unfold page nFromLatest limit
    congr 2
    ring
  · norm_num [page, nFromLatest, limit]
  · norm_num [indexInPage, nFromLatest, limit, jsRem, jsTrunc]
  · norm_num [page, nFromLatest, limit]
  · norm_num [indexInPage, nFromLatest, limit, jsRem, jsTrunc]

/-- Witness for C2 at `n = 1`, `maxPlaycount = 500`. -/
theorem C2_pagination_formula_witness :
    page ((500 : ℤ) : ℚ) ((1 : ℤ) : ℚ) = ⌊(((500 : ℤ) : ℚ) - ((1 : ℤ) : ℚ)) / 200⌋ + 1 ∧
    page 500 1 = 3 ∧ indexInPage 500 1 = 99 :=
  ⟨(C2_pagination_formula 1 500 (by decide) (by decide)).1,
   (C2_pagination_formula 1 500 (by decide) (by decide)).2.2.1,
   (C2_pagination_formula 1 500 (by decide) (by decide)).2.2.2.1⟩

/-- C10: for all integers `1 ≤ n ≤ maxPlaycount`, the computed page is at
least 1, the offset is between 0 and 199, and
`(page - 1) * 200 + offsetInPage = maxPlaycount - n`, so the in-page index
for the array lookup is always within the fixed page size. -/
theorem C10_page_offset_bounds (n m : ℤ) (h1 : 1 ≤ n) (h2 : n ≤ m) :
    1 ≤ page (m : ℚ) (n : ℚ) ∧
    0 ≤ indexInPage (m : ℚ) (n : ℚ) ∧
    indexInPage (m : ℚ) (n : ℚ) ≤ 199 ∧
    ((page (m : ℚ) (n : ℚ) : ℚ) - 1) * 200 + indexInPage (m : ℚ) (n : ℚ)
      = (m : ℚ) - (n : ℚ) := by
  rw [page_int_eq, indexInPage_int_eq n m h2]
  have hmod := Int.emod_nonneg (m - n) (by norm_num : (200 : ℤ) ≠ 0)
  have hlt := Int.emod_lt_of_pos (m - n) (by norm_num : (0 : ℤ) < 200)
  refine ⟨?_, ?_, ?_, ?_⟩
  · have : 0 ≤ (m - n) / 200 := Int.ediv_nonneg (by omega) (by norm_num)
    omega
  · exact_mod_cast hmod
  · exact_mod_cast (by omega : (m - n) % 200 ≤ (199 : ℤ))
  · have h := Int.ediv_add_emod (m - n) 200
    have hq : 200 * (((m - n) / 200 : ℤ) : ℚ) + (((m - n) % 200 : ℤ) : ℚ)
        = (m : ℚ) - (n : ℚ) := by exact_mod_cast h
    push_cast
    linarith [hq]

/-- Witness for C10 at `n = 7`, `maxPlaycount = 1234`. -/
theorem C10_page_offset_bounds_witness :
    1 ≤ page ((1234 : ℤ) : ℚ) ((7 : ℤ) : ℚ) ∧
    0 ≤ indexInPage ((1234 : ℤ) : ℚ) ((7 : ℤ) : ℚ) :=
  ⟨(C10_page_offset_bounds 7 1234 (by decide) (by decide)).1,
   (C10_page_offset_bounds 7 1234 (by decide) (by decide)).2.1⟩

/-! ## Validation and error paths -/

/-- A non-empty present string parameter is truthy. -/
theorem jsFalsyS_some_false (s : String) (h : s ≠ "") : jsFalsyS (some s) = false := by
  simp [jsFalsyS, h]

/-- C5: a request with the username parameter absent yields the
MissingParameter error with status 400 on either endpoint, with no
outbound call performed (for every environment and remaining parameters). -/
theorem C5_missing_username (env : Env) (nParam maxPlaycountParam : Option String) :
    getNthSongGET env none nParam maxPlaycountParam
      = (errResp 400 "Missing required parameters: user, n, maxPlaycount", []) ∧
    maxPlaycountGET env none = (errResp 400 "Missing required parameter: user", 0) := by
  exact ⟨rfl, rfl⟩

/-- C3: when username, `n` and `maxPlaycount` are all present and `n`
parses to 0 or to a value exceeding `maxPlaycount`, the track-by-index
endpoint returns the InvalidIndex error with status 400 and performs no
outbound call (the result is the same for every upstream environment). -/
theorem C3_invalid_index_rejected (env : Env) (u nP mP : String) (nv mv : ℚ)
    (hu : u ≠ "") (hn : nP ≠ "") (hm : mP ≠ "")
    (hnv : jsNumberOfString nP = some nv) (hmv : jsNumberOfString mP = some mv)
    (hbad : nv = 0 ∨ mv < nv) :
    getNthSongGET env (some u) (some nP) (some mP)
      = (errResp 400 "Invalid 'n' or 'maxPlaycount' value", []) := by
  have hinv : invalidNM (jsNumberOfString nP) (jsNumberOfString mP) = true := by
    rw [hnv, hmv]
    rcases hbad with h0 | hlt
    · subst h0
      simp only [invalidNM, Bool.or_eq_true, decide_eq_true_eq]
      left
      norm_num
    · simp [invalidNM, hlt]
  simp only [getNthSongGET, jsFalsyS_some_false u hu, jsFalsyS_some_false nP hn,
    jsFalsyS_some_false mP hm, Bool.or_self, Bool.or_false, Bool.false_or,
    Option.getD_some, hinv, if_true, if_false]
  rfl

/-- Witness for C3: `n = "0"`, `maxPlaycount = "5"`, arbitrary fixed
environment. -/
theorem C3_invalid_index_rejected_witness :
    getNthSongGET ⟨none, .threw⟩ (some "u") (some "0") (some "5")
      = (errResp 400 "Invalid 'n' or 'maxPlaycount' value", []) :=
  C3_invalid_index_rejected ⟨none, .threw⟩ "u" "0" "5" 0 5
    (by decide) (by decide) (by decide) (by decide) (by decide) (Or.inl rfl)

/-- Past validation and the API-key check, the handler performs exactly
the one outbound fetch for the computed page, whatever the outcome. -/
theorem getNthSong_calls_eq (key : String) (fo : FetchOutcome) (u nP mP : String)
    (hu : u ≠ "") (hn : nP ≠ "") (hm : mP ≠ "") (hk : key ≠ "")
    (hinv : invalidNM (jsNumberOfString nP) (jsNumberOfString mP) = false) :
    (getNthSongGET ⟨some key, fo⟩ (some u) (some nP) (some mP)).2
      = [page ((jsNumberOfString mP).getD 0) ((jsNumberOfString nP).getD 0)] := by
  unfold getNthSongGET
  simp only [jsFalsyS_some_false u hu, jsFalsyS_some_false nP hn,
    jsFalsyS_some_false mP hm, jsFalsyS_some_false key hk, Option.getD_some, hinv,
    Bool.or_self, Bool.or_false, Bool.false_or, Bool.false_eq_true, if_false]
  split
  any_goals rfl
  split
  any_goals rfl
  split <;> rfl

/-- C8: the validation only checks NaN-ness and the range bounds, so the
fractional index `n = 1.5` with `maxPlaycount = 2` passes validation and
the handler proceeds to the upstream fetch (exactly one outbound call, for
every fetch outcome and non-empty API key). -/
theorem C8_fractional_index_passes (fo : FetchOutcome) (key : String) (hk : key ≠ "") :
    jsNumberOfString "1.5" = some (3 / 2) ∧
    invalidNM (jsNumberOfString "1.5") (jsNumberOfString "2") = false ∧
    (getNthSongGET ⟨some key, fo⟩ (some "u") (some "1.5") (some "2")).2.length = 1 := by
  have h15 : jsNumberOfString "1.5" = some ((1 : ℚ) + 5 / 10) := rfl
  have h15' : jsNumberOfString "1.5" = some (3 / 2) := by rw [h15]; norm_num
  have h2 : jsNumberOfString "2" = some 2 := rfl
  have hinv : invalidNM (jsNumberOfString "1.5") (jsNumberOfString "2") = false := by
    rw [h15', h2]
    simp only [invalidNM, Bool.or_eq_false_iff, decide_eq_false_iff_not, not_lt]
    norm_num
  refine ⟨h15', hinv, ?_⟩
  rw [getNthSong_calls_eq key fo "u" "1.5" "2" (by decide) (by decide) (by decide) hk hinv]
  rfl

/-- Witness for C8: fetch outcome `threw`, key `"k"`. -/
theorem C8_fractional_index_passes_witness :
    (getNthSongGET ⟨some "k", .threw⟩ (some "u") (some "1.5") (some "2")).2.length = 1 :=
  (C8_fractional_index_passes .threw "k" (by decide)).2.2

/-! ## Playcount endpoint behaviour -/

/-- A present non-null JSON value is not `null`-flagged. -/
theorem isNullV_some_false (pv : JsonVal) (h : pv ≠ .null) :
    isNullV (some pv) = false := by
  cases pv <;> simp_all [isNullV]

/-- C4 (amended): on an upstream user-info body, a missing (or JSON-null)
playcount field yields the 404 "Could not find playcount" error, while a
present non-null playcount that does not coerce to a number yields the 500
MalformedUpstreamData error. -/
theorem C4_playcount_missing_vs_malformed (key u : String) (data : JsonVal)
    (hk : key ≠ "") (hu : u ≠ "") :
    (((data.getField "user").bind (fun v => v.getField "playcount") = none ∨
        (data.getField "user").bind (fun v => v.getField "playcount") = some .null) →
      maxPlaycountGET ⟨some key, .ok data⟩ (some u)
        = (errResp 404 "Could not find playcount for the specified user.", 1)) ∧
    (∀ pv : JsonVal,
      (data.getField "user").bind (fun v => v.getField "playcount") = some pv →
      pv ≠ .null → jsToNumber pv = none →
      maxPlaycountGET ⟨some key, .ok data⟩ (some u)
        = (errResp 500 "Invalid playcount format received from Last.fm", 1)) := by
  constructor
  · intro hpc
    simp only [maxPlaycountGET, jsFalsyS_some_false u hu, jsFalsyS_some_false key hk,
      Bool.false_eq_true, if_false]
    rcases hpc with hpc | hpc <;>
      simp [hpc, isNullV, Option.isNone]
  · intro pv hpc hnull hnan
    simp only [maxPlaycountGET, jsFalsyS_some_false u hu, jsFalsyS_some_false key hk,
      Bool.false_eq_true, if_false, hpc, Option.isNone_some, isNullV_some_false pv hnull,
      Bool.or_self, Option.getD_some, hnan]

/-- Counterexample to C4 as stated: with the playcount field missing from
the upstream body, the endpoint responds 404, not 500. -/
theorem C4_counterexample :
    maxPlaycountGET ⟨some "k", .ok (.obj [("user", .obj [])])⟩ (some "u")
      = (errResp 404 "Could not find playcount for the specified user.", 1) ∧
    (maxPlaycountGET ⟨some "k", .ok (.obj [("user", .obj [])])⟩ (some "u")).1.status ≠ 500 := by
  exact ⟨rfl, by decide⟩

/-- Witness for C4 (amended) at playcount `"abc"` (present, non-numeric). -/
theorem C4_playcount_missing_vs_malformed_witness :
    maxPlaycountGET ⟨some "k", .ok (.obj [("user", .obj [("playcount", .str "abc")])])⟩
        (some "u")
      = (errResp 500 "Invalid playcount format received from Last.fm", 1) :=
  (C4_playcount_missing_vs_malformed "k" "u" (.obj [("user", .obj [("playcount", .str "abc")])])
      (by decide) (by decide)).2 (.str "abc") rfl (fun h => JsonVal.noConfusion h) (by decide)

/-- A string of JS whitespace (or the empty string) coerces to the number 0. -/
theorem jsNumberOfString_all_ws (s : String) (h : s.data.all jsWs = true) :
    jsNumberOfString s = some 0 := by
  have hnil : trimChars s.data = [] := by
    unfold trimChars
    have h1 : s.data.dropWhile jsWs = [] :=
      List.dropWhile_eq_nil_iff.2 (fun x hx => by
        have := List.all_eq_true.1 h x hx
        exact this)
    rw [h1]
    rfl
  simp only [jsNumberOfString, hnil, if_true]

/-- C9: when the upstream user-info body carries the playcount as the
empty string or a whitespace-only string, the endpoint succeeds with
status 200 and `maxPlaycount = 0` (the field passes the missing-field
check and `Number("")` is 0, not NaN). -/
theorem C9_empty_playcount_is_zero (key u s : String)
    (hk : key ≠ "") (hu : u ≠ "") (hws : s.data.all jsWs = true) :
    maxPlaycountGET ⟨some key, .ok (.obj [("user", .obj [("playcount", .str s)])])⟩ (some u)
      = (⟨200, .obj [("maxPlaycount", .num 0)]⟩, 1) := by
  have hnum : jsToNumber (.str s) = some 0 := jsNumberOfString_all_ws s hws
  simp only [maxPlaycountGET, jsFalsyS_some_false u hu, jsFalsyS_some_false key hk,
    Bool.false_eq_true, if_false]
  have hpc : ((JsonVal.obj [("user", .obj [("playcount", .str s)])]).getField "user").bind
      (fun v => v.getField "playcount") = some (.str s) := rfl
  simp only [hpc, Option.isNone_some, isNullV, Bool.or_self, Option.getD_some, hnum,
    Bool.false_eq_true, if_false]

/-- Witness for C9 at the empty string and at a whitespace-only string. -/
theorem C9_empty_playcount_is_zero_witness :
    maxPlaycountGET ⟨some "k", .ok (.obj [("user", .obj [("playcount", .str "")])])⟩ (some "u")
      = (⟨200, .obj [("maxPlaycount", .num 0)]⟩, 1) ∧
    maxPlaycountGET ⟨some "k", .ok (.obj [("user", .obj [("playcount", .str "  ")])])⟩ (some "u")
      = (⟨200, .obj [("maxPlaycount", .num 0)]⟩, 1) :=
  ⟨C9_empty_playcount_is_zero "k" "u" "" (by decide) (by decide) (by decide),
   C9_empty_playcount_is_zero "k" "u" "  " (by decide) (by decide) (by decide)⟩

/-! ## Response shape and totality -/

/-- Whether a response body is exactly the `{ error: string }` object. -/
def isErrorBody : JsonVal → Bool
  | .obj [("error", .str _)] => true
  | _ => false

/-- The status codes the error taxonomy allows: 200, 400, 404, 500, or the
upstream status passed through on a non-ok upstream response. -/
def statusInTaxonomy (env : Env) (r : Response) : Prop :=
  r.status = 200 ∨ r.status = 400 ∨ r.status = 404 ∨ r.status = 500 ∨
    env.fetch = .httpError r.status

/-- Exhaustive shape analysis of the track-by-index handler: every run is
a pre-fetch validation error, a post-fetch error, or a success carrying
exactly the track object. -/
theorem getNthSong_cases (env : Env) (user nParam maxPlaycountParam : Option String) :
    (∃ st msg, getNthSongGET env user nParam maxPlaycountParam = (errResp st msg, []) ∧
      (st = 400 ∨ st = 500)) ∨
    (∃ st msg pg, getNthSongGET env user nParam maxPlaycountParam = (errResp st msg, [pg]) ∧
      (st = 404 ∨ st = 500 ∨ env.fetch = .httpError st)) ∨
    (∃ t pg, getNthSongGET env user nParam maxPlaycountParam
      = (⟨200, .obj [("track", t)]⟩, [pg])) := by
  unfold getNthSongGET
  by_cases h1 : (jsFalsyS user || jsFalsyS nParam || jsFalsyS maxPlaycountParam) = true
  · rw [if_pos h1]
    exact Or.inl ⟨400, _, rfl, Or.inl rfl⟩
  · rw [if_neg h1]
    by_cases h2 : invalidNM (jsNumberOfString (nParam.getD ""))
        (jsNumberOfString (maxPlaycountParam.getD "")) = true
    · rw [if_pos h2]
      exact Or.inl ⟨400, _, rfl, Or.inl rfl⟩
    · rw [if_neg h2]
      by_cases h3 : jsFalsyS env.apiKey = true
      · rw [if_pos h3]
        exact Or.inl ⟨500, _, rfl, Or.inr rfl⟩
      · rw [if_neg h3]
        rcases hfo : env.fetch with data | s | _ | _
        · dsimp only
          split
          · exact Or.inr (Or.inl ⟨404, _, _, rfl, Or.inl rfl⟩)
          · rename_i t heq
            by_cases h4 : jsFalsyV t = true
            · rw [if_pos h4]
              exact Or.inr (Or.inl ⟨404, _, _, rfl, Or.inl rfl⟩)
            · rw [if_neg h4]
              exact Or.inr (Or.inr ⟨t, _, rfl⟩)
        · exact Or.inr (Or.inl ⟨s, _, _, rfl, Or.inr (Or.inr rfl)⟩)
        · exact Or.inr (Or.inl ⟨500, _, _, rfl, Or.inr (Or.inl rfl)⟩)
        · exact Or.inr (Or.inl ⟨500, _, _, rfl, Or.inr (Or.inl rfl)⟩)

/-- Exhaustive shape analysis of the playcount handler: every run is a
pre-fetch validation error, a post-fetch error, or a success carrying
exactly the playcount number. -/
theorem maxPlaycount_cases (env : Env) (user : Option String) :
    (∃ st msg, maxPlaycountGET env user = (errResp st msg, 0) ∧ (st = 400 ∨ st = 500)) ∨
    (∃ st msg, maxPlaycountGET env user = (errResp st msg, 1) ∧
      (st = 404 ∨ st = 500 ∨ env.fetch = .httpError st)) ∨
    (∃ q, maxPlaycountGET env user = (⟨200, .obj [("maxPlaycount", .num q)]⟩, 1)) := by
  unfold maxPlaycountGET
  by_cases h1 : jsFalsyS user = true
  · rw [if_pos h1]
    exact Or.inl ⟨400, _, rfl, Or.inl rfl⟩
  · rw [if_neg h1]
    by_cases h2 : jsFalsyS env.apiKey = true
    · rw [if_pos h2]
      exact Or.inl ⟨500, _, rfl, Or.inr rfl⟩
    · rw [if_neg h2]
      rcases hfo : env.fetch with data | s | _ | _
      · dsimp only
        by_cases h3 : (((data.getField "user").bind (fun v => v.getField "playcount")).isNone
            || isNullV ((data.getField "user").bind (fun v => v.getField "playcount"))) = true
        · rw [if_pos h3]
          exact Or.inr (Or.inl ⟨404, _, rfl, Or.inl rfl⟩)
        · rw [if_neg h3]
          split
          · exact Or.inr (Or.inl ⟨500, _, rfl, Or.inr (Or.inl rfl)⟩)
          · rename_i q heq
            exact Or.inr (Or.inr ⟨q, rfl⟩)
      · dsimp only
        by_cases h4 : s = 404
        · subst h4
          rw [if_pos rfl]
          exact Or.inr (Or.inl ⟨404, _, rfl, Or.inl rfl⟩)
        · rw [if_neg h4]
          exact Or.inr (Or.inl ⟨s, _, rfl, Or.inr (Or.inr rfl)⟩)
      · exact Or.inr (Or.inl ⟨500, _, rfl, Or.inr (Or.inl rfl)⟩)
      · exact Or.inr (Or.inl ⟨500, _, rfl, Or.inr (Or.inl rfl)⟩)

/-- C6: for every input and every upstream outcome (including thrown fetch
and JSON-parse errors) both handlers return an explicit response — a
success or an `{ error: string }` body — with a status from the taxonomy,
and each performs at most one outbound call (no retries). -/
theorem C6_total_error_handling_no_retries (env : Env)
    (user nParam maxPlaycountParam : Option String) :
    (getNthSongGET env user nParam maxPlaycountParam).2.length ≤ 1 ∧
    (maxPlaycountGET env user).2 ≤ 1 ∧
    (isErrorBody (getNthSongGET env user nParam maxPlaycountParam).1.body = true ∨
      (getNthSongGET env user nParam maxPlaycountParam).1.status = 200) ∧
    statusInTaxonomy env (getNthSongGET env user nParam maxPlaycountParam).1 ∧
    (isErrorBody (maxPlaycountGET env user).1.body = true ∨
      (maxPlaycountGET env user).1.status = 200) ∧
    statusInTaxonomy env (maxPlaycountGET env user).1 := by
  rcases getNthSong_cases env user nParam maxPlaycountParam with
      ⟨st, msg, heq, hst⟩ | ⟨st, msg, pg, heq, hst⟩ | ⟨t, pg, heq⟩ <;>
    rcases maxPlaycount_cases env user with
        ⟨st2, msg2, heq2, hst2⟩ | ⟨st2, msg2, heq2, hst2⟩ | ⟨q, heq2⟩ <;>
      rw [heq, heq2] <;>
        refine ⟨by simp, by simp, ?_, ?_, ?_, ?_⟩ <;>
          simp only [errResp, statusInTaxonomy, isErrorBody] <;>
            first
              | exact Or.inl rfl
              | exact Or.inr rfl
              | (rcases hst with h | h | h <;> subst h <;> simp)
              | (rcases hst with h | h <;> subst h <;> simp)
              | (rcases hst2 with h | h | h <;> subst h <;> simp)
              | (rcases hst2 with h | h <;> subst h <;> simp)
              | (rcases hst with h | h | h
                 · simp [h]
                 · simp [h]
                 · exact Or.inr (Or.inr (Or.inr (Or.inr h))))
              | (rcases hst2 with h | h | h
                 · simp [h]
                 · simp [h]
                 · exact Or.inr (Or.inr (Or.inr (Or.inr h))))
              | simp

/-- C1 (amended): every track-by-index response body is either the
`{ error: string }` object or exactly `{ track: <record> }`; in particular
no response body ever carries a `spotify` field — the handler performs no
enrichment. -/
theorem C1_success_body_is_track_only (env : Env)
    (user nParam maxPlaycountParam : Option String) :
    JsonVal.hasKey (getNthSongGET env user nParam maxPlaycountParam).1.body "spotify"
        = false ∧
    (isErrorBody (getNthSongGET env user nParam maxPlaycountParam).1.body = true ∨
      ∃ t : JsonVal, (getNthSongGET env user nParam maxPlaycountParam).1.body
        = .obj [("track", t)]) := by
  rcases getNthSong_cases env user nParam maxPlaycountParam with
      ⟨st, msg, heq, hst⟩ | ⟨st, msg, pg, heq, hst⟩ | ⟨t, pg, heq⟩ <;> rw [heq]
  · exact ⟨rfl, Or.inl rfl⟩
  · exact ⟨rfl, Or.inl rfl⟩
  · exact ⟨rfl, Or.inr ⟨t, rfl⟩⟩

/-- C7: the title "Song Title - Remastered 2011" normalizes to
"Song Title" before the enrichment search query is built (modelled from
the spec, since the enrichment code is absent from `src/`). -/
theorem C7_normalize_remastered_title :
    normalizeTitle "Song Title - Remastered 2011" = "Song Title" := by
  decide

/-- Counterexample to C1 as stated: a successful track-by-index lookup
(status 200, body carrying the track) whose response body has no
`spotify` field at all. -/
theorem C1_counterexample :
    (getNthSongGET ⟨some "k", .ok (.obj [("recenttracks", .obj [("track",
        .arr [.obj [("name", .str "T")]])])])⟩ (some "u") (some "1") (some "1")).1.status
      = 200 ∧
    JsonVal.hasKey (getNthSongGET ⟨some "k", .ok (.obj [("recenttracks", .obj [("track",
        .arr [.obj [("name", .str "T")]])])])⟩ (some "u") (some "1") (some "1")).1.body
      "track" = true ∧
    JsonVal.hasKey (getNthSongGET ⟨some "k", .ok (.obj [("recenttracks", .obj [("track",
        .arr [.obj [("name", .str "T")]])])])⟩ (some "u") (some "1") (some "1")).1.body
      "spotify" = false := by
  have h1 : jsNumberOfString "1" = some 1 := rfl
  have hlt : ¬((1 : ℚ) < 1) := lt_irrefl 1
  have hinv : invalidNM (jsNumberOfString "1") (jsNumberOfString "1") = false := by
    rw [h1]
    simp only [invalidNM, decide_eq_false hlt, Bool.or_self]
  have hidx : indexInPage ((jsNumberOfString "1").getD 0) ((jsNumberOfString "1").getD 0)
      = 0 := by
    rw [h1]
    show indexInPage 1 1 = 0
    norm_num [indexInPage, nFromLatest, limit, jsRem, jsTrunc]
  have heval : getNthSongGET ⟨some "k", .ok (.obj [("recenttracks", .obj [("track",
        .arr [.obj [("name", .str "T")]])])])⟩ (some "u") (some "1") (some "1")
      = (⟨200, .obj [("track", .obj [("name", .str "T")])]⟩,
         [page ((jsNumberOfString "1").getD 0) ((jsNumberOfString "1").getD 0)]) := by
    simp only [getNthSongGET, Option.getD_some, hinv, Bool.false_eq_true, if_false]
    rw [if_neg (by decide)]
    rw [if_neg (by decide)]
    simp only [hidx]
    rfl
  exact ⟨by rw [heval], by rw [heval]; rfl, by rw [heval]; rfl⟩

end LastFmApp
